import Mathlib

/-!
Verification of the memory-type resolver and queue allocator of
`src/device.hpp` (struct `cvk_device`, clvk).

The embedding follows the source:
  * `memory_type_index_for_resource` (single required-property set) is the
    loop at device.hpp:52-67, modelled by `scan_memory_types` started at
    index 0 over the device's memory-type table.
  * the list-taking overload (device.hpp:69-83) is
    `memory_type_index_for_resource_list`.
  * `select_memory_for` on a buffer (device.hpp:102-124) is
    `select_memory_for_buffer`; the driver-reported `VkMemoryRequirements`
    are an explicit input (in C++ they come from
    `vkGetBufferMemoryRequirements`, an external driver call).
  * `vulkan_queue_allocate` (device.hpp:237-247) mutates the cursor
    `m_vulkan_queue_alloc_index`; the embedding passes the device state
    explicitly and models the unchecked `operator[]` read as `List.getElem?`.

Bitmask arithmetic: `valid_memory_type_bits` is a `uint32_t`, the property
flags are `VkMemoryPropertyFlags` (also 32-bit); all are modelled as `Nat`
with `&&&` for bitwise AND and `Nat.testBit` for the test
`(1ULL << k) & valid_memory_type_bits` (the loop index `k` stays below
`memoryTypeCount <= 32`, so no shift truncation occurs in the source).
-/

/-- `VK_MAX_MEMORY_TYPES` from vulkan.h, used by the source as the
"not found" sentinel return value. -/
def VK_MAX_MEMORY_TYPES : Nat := 32

/-- Vulkan memory property flag bit (vulkan.h). -/
def VK_MEMORY_PROPERTY_DEVICE_LOCAL_BIT : Nat := 1

/-- Vulkan memory property flag bit (vulkan.h). -/
def VK_MEMORY_PROPERTY_HOST_VISIBLE_BIT : Nat := 2

/-- Vulkan memory property flag bit (vulkan.h). -/
def VK_MEMORY_PROPERTY_HOST_COHERENT_BIT : Nat := 4

/-- Vulkan memory property flag bit (vulkan.h). -/
def VK_MEMORY_PROPERTY_HOST_CACHED_BIT : Nat := 8

/-- One entry of the device's memory-type table
(`VkMemoryType`, of which the source only reads `propertyFlags`). -/
structure VkMemoryType where
  propertyFlags : Nat
deriving DecidableEq

/-- The device memory-property table (`VkPhysicalDeviceMemoryProperties`);
`memoryTypes` holds the first `memoryTypeCount` entries of the C array, so
`memoryTypeCount` is its length. -/
structure VkPhysicalDeviceMemoryProperties where
  memoryTypes : List VkMemoryType
deriving DecidableEq

/-- Driver-reported requirements of one resource (`VkMemoryRequirements`:
the source reads `size` and `memoryTypeBits`). -/
structure VkMemoryRequirements where
  size : Nat
  memoryTypeBits : Nat
deriving DecidableEq

/-- The fields of `cvk_device` that the resolver and the queue allocator
touch: the immutable memory table, the queue pool and the rotation cursor.
`Q` is the (opaque) type of `cvk_vulkan_queue_wrapper`. -/
structure cvk_device (Q : Type) where
  m_mem_properties : VkPhysicalDeviceMemoryProperties
  m_vulkan_queues : List Q
  m_vulkan_queue_alloc_index : Nat

/-- The loop body of `memory_type_index_for_resource`
(device.hpp:56-64): scan the remaining memory types, `k` being the index
of the head; return `k` when type `k` is valid (its bit is set in
`valid_memory_type_bits`) and satisfactory (its flags contain
`required_properties`), else `VK_MAX_MEMORY_TYPES` after the last entry. -/
def scan_memory_types (required_properties valid_memory_type_bits : Nat) :
    List VkMemoryType → Nat → Nat
  | [], _ => VK_MAX_MEMORY_TYPES
  | t :: rest, k =>
    let valid : Bool := Nat.testBit valid_memory_type_bits k
    let satisfactory : Bool := t.propertyFlags &&& required_properties == required_properties
    if satisfactory && valid then k
    else scan_memory_types required_properties valid_memory_type_bits rest (k + 1)

/-- `memory_type_index_for_resource(uint32_t, VkMemoryPropertyFlags)`
(device.hpp:52-67): first-fit scan from index 0. -/
def memory_type_index_for_resource {Q : Type} (d : cvk_device Q)
    (valid_memory_type_bits required_properties : Nat) : Nat :=
  scan_memory_types required_properties valid_memory_type_bits
    d.m_mem_properties.memoryTypes 0

/-- `memory_type_index_for_resource(uint32_t, int, uint32_t*)`
(device.hpp:69-83): try each supported property set in order, return the
first non-sentinel single-set result, else the sentinel. -/
def memory_type_index_for_resource_list {Q : Type} (d : cvk_device Q)
    (valid_memory_type_bits : Nat) : List Nat → Nat
  | [] => VK_MAX_MEMORY_TYPES
  | p :: rest =>
    let k := memory_type_index_for_resource d valid_memory_type_bits p
    if k ≠ VK_MAX_MEMORY_TYPES then k
    else memory_type_index_for_resource_list d valid_memory_type_bits rest

/-- `struct allocation_parameters` (device.hpp:85-88). -/
structure allocation_parameters where
  size : Nat
  memory_type_index : Nat
deriving DecidableEq

/-- `select_memory_for(VkBuffer, cl_mem_flags)` (device.hpp:102-124).
`flags` is `UNUSED` in the source; `memreqs` is the driver answer for the
buffer. The fixed fallback array `supported_memory_types` is
[HOST_VISIBLE|HOST_CACHED|HOST_COHERENT, HOST_VISIBLE|HOST_COHERENT]. -/
def select_memory_for_buffer {Q : Type} (d : cvk_device Q)
    (memreqs : VkMemoryRequirements) (flags : Nat) : allocation_parameters :=
  let _ := flags
  let supported_memory_types : List Nat :=
    [VK_MEMORY_PROPERTY_HOST_VISIBLE_BIT |||
       VK_MEMORY_PROPERTY_HOST_CACHED_BIT |||
       VK_MEMORY_PROPERTY_HOST_COHERENT_BIT,
     VK_MEMORY_PROPERTY_HOST_VISIBLE_BIT |||
       VK_MEMORY_PROPERTY_HOST_COHERENT_BIT]
  { size := memreqs.size,
    memory_type_index :=
      memory_type_index_for_resource_list d memreqs.memoryTypeBits
        supported_memory_types }

/-- `vulkan_queue_allocate` (device.hpp:237-247): read the queue at the
cursor, post-increment the cursor, reset it to 0 when it reaches the pool
size. The unchecked `m_vulkan_queues[...]` read is `List.getElem?`. -/
def vulkan_queue_allocate {Q : Type} (d : cvk_device Q) :
    Option Q × cvk_device Q :=
  let queue := d.m_vulkan_queues[d.m_vulkan_queue_alloc_index]?
  let idx := d.m_vulkan_queue_alloc_index + 1
  let idx := if idx = d.m_vulkan_queues.length then 0 else idx
  (queue, { d with m_vulkan_queue_alloc_index := idx })

/-- The device state after `n` calls to `vulkan_queue_allocate`. -/
def allocate_iter {Q : Type} (d : cvk_device Q) : Nat → cvk_device Q
  | 0 => d
  | n + 1 => (vulkan_queue_allocate (allocate_iter d n)).2

/-- The queue returned by the `(n+1)`-st call to `vulkan_queue_allocate`
(0-indexed: `allocate_nth d 0` is the first call's result). -/
def allocate_nth {Q : Type} (d : cvk_device Q) (n : Nat) : Option Q :=
  (vulkan_queue_allocate (allocate_iter d n)).1

/-- Memory type `i` satisfies the query `(valid_memory_type_bits,
required_properties)` on device `d`: it exists in the table, its bit is
set in the compatibility bitmask, and its flags contain the required
properties. -/
def satisfies_query {Q : Type} (d : cvk_device Q)
    (valid_memory_type_bits required_properties i : Nat) : Prop :=
  ∃ h : i < d.m_mem_properties.memoryTypes.length,
    Nat.testBit valid_memory_type_bits i ∧
    (d.m_mem_properties.memoryTypes.get ⟨i, h⟩).propertyFlags &&&
        required_properties = required_properties

-- ----------------------------------------------------------------------
-- Helper lemmas about the scan
-- ----------------------------------------------------------------------

/-- The scan either returns the sentinel or the index (offset into the
scanned suffix, shifted by the start index `k`) of a valid, satisfactory
type. -/
lemma scan_memory_types_sound (req v : Nat) :
    ∀ (ts : List VkMemoryType) (k : Nat),
      scan_memory_types req v ts k = VK_MAX_MEMORY_TYPES ∨
      ∃ j, ∃ h : j < ts.length,
        scan_memory_types req v ts k = k + j ∧
        Nat.testBit v (k + j) ∧
        (ts.get ⟨j, h⟩).propertyFlags &&& req = req := by
  intro ts
  induction ts with
  | nil => intro k; exact Or.inl rfl
  | cons t rest ih =>
    intro k
    by_cases hc : ((t.propertyFlags &&& req == req) && Nat.testBit v k) = true
    · right
      refine ⟨0, Nat.succ_pos _, ?_, ?_, ?_⟩
      · simp [scan_memory_types, hc]
      · have := (Bool.and_eq_true _ _).mp hc
        simpa using this.2
      · have := (Bool.and_eq_true _ _).mp hc
        simpa using beq_iff_eq.mp this.1
    · have hstep : scan_memory_types req v (t :: rest) k =
          scan_memory_types req v rest (k + 1) := by
        simp [scan_memory_types, hc]
      rcases ih (k + 1) with h0 | ⟨j, hj, heq, hbit, hflag⟩
      · left; rw [hstep]; exact h0
      · right
        refine ⟨j + 1, by simpa using Nat.succ_lt_succ hj, ?_, ?_, ?_⟩
        · rw [hstep, heq]; omega
        · have : k + 1 + j = k + (j + 1) := by omega
          rw [← this]; exact hbit
        · simpa using hflag

/-- First-fit: the scan result is at most the (shifted) index of any
valid, satisfactory type in the scanned suffix. -/
lemma scan_memory_types_min (req v : Nat) :
    ∀ (ts : List VkMemoryType) (k j : Nat) (hj : j < ts.length),
      Nat.testBit v (k + j) →
      (ts.get ⟨j, hj⟩).propertyFlags &&& req = req →
      scan_memory_types req v ts k ≤ k + j := by
  intro ts
  induction ts with
  | nil => intro k j hj; exact absurd hj (by simp)
  | cons t rest ih =>
    intro k j hj hbit hflag
    by_cases hc : ((t.propertyFlags &&& req == req) && Nat.testBit v k) = true
    · have : scan_memory_types req v (t :: rest) k = k := by
        simp [scan_memory_types, hc]
      omega
    · have hstep : scan_memory_types req v (t :: rest) k =
          scan_memory_types req v rest (k + 1) := by
        simp [scan_memory_types, hc]
      cases j with
      | zero =>
        exfalso
        apply hc
        refine (Bool.and_eq_true _ _).mpr ⟨beq_iff_eq.mpr ?_, ?_⟩
        · simpa using hflag
        · simpa using hbit
      | succ j0 =>
        have hj0 : j0 < rest.length := by simpa using Nat.lt_of_succ_lt_succ hj
        have hbit0 : Nat.testBit v (k + 1 + j0) := by
          have : k + 1 + j0 = k + (j0 + 1) := by omega
          rw [this]; exact hbit
        have hflag0 : (rest.get ⟨j0, hj0⟩).propertyFlags &&& req = req := by
          simpa using hflag
        have := ih (k + 1) j0 hj0 hbit0 hflag0
        rw [hstep]; omega

/-- With an all-zero compatibility bitmask, no type is ever valid and the
scan returns the sentinel. -/
lemma scan_memory_types_zero (req : Nat) :
    ∀ (ts : List VkMemoryType) (k : Nat),
      scan_memory_types req 0 ts k = VK_MAX_MEMORY_TYPES := by
  intro ts
  induction ts with
  | nil => intro k; rfl
  | cons t rest ih =>
    intro k
    have hbit : Nat.testBit 0 k = false := Nat.zero_testBit k
    simp [scan_memory_types, hbit]
    exact ih (k + 1)

/-- Cursor increment with post-check wrap equals increment modulo the pool
size, whenever the cursor is reduced modulo the size. -/
lemma succ_mod_wrap (n N : Nat) (hN : 0 < N) :
    (if n % N + 1 = N then 0 else n % N + 1) = (n + 1) % N := by
  rcases Nat.lt_or_ge 1 N with h2 | h1
  · have h1N : 1 % N = 1 := Nat.mod_eq_of_lt h2
    have hmod : (n + 1) % N = (n % N + 1) % N := by
      rw [Nat.add_mod, h1N]
    by_cases hc : n % N + 1 = N
    · rw [hmod, hc, Nat.mod_self]
      simp
    · have hlt : n % N < N := Nat.mod_lt n hN
      have hsmall : n % N + 1 < N := by omega
      rw [hmod, Nat.mod_eq_of_lt hsmall, if_neg hc]
  · have hone : N = 1 := by omega
    subst hone
    simp [Nat.mod_one]

/-- After `n` allocations from a fresh cursor, the pool is untouched and
the cursor equals `n` modulo the pool size. -/
lemma allocate_iter_state {Q : Type} (mem : VkPhysicalDeviceMemoryProperties)
    (qs : List Q) (h : 0 < qs.length) (n : Nat) :
    allocate_iter (⟨mem, qs, 0⟩ : cvk_device Q) n = ⟨mem, qs, n % qs.length⟩ := by
  induction n with
  | zero => simp [allocate_iter, Nat.zero_mod]
  | succ n ih =>
    have hstep : allocate_iter (⟨mem, qs, 0⟩ : cvk_device Q) (n + 1) =
        (vulkan_queue_allocate (allocate_iter ⟨mem, qs, 0⟩ n)).2 := rfl
    rw [hstep, ih]
    simp only [vulkan_queue_allocate]
    rw [succ_mod_wrap n qs.length h]

-- ----------------------------------------------------------------------
-- Concrete devices used by the witnesses and the spec scenario
-- ----------------------------------------------------------------------

/-- The memory-type table of the spec's section-8 scenario
(DEVICE_LOCAL; HOST_VISIBLE|HOST_COHERENT;
HOST_VISIBLE|HOST_CACHED|HOST_COHERENT) with a three-queue pool. -/
def demo_device : cvk_device Nat := ⟨⟨[⟨1⟩, ⟨6⟩, ⟨14⟩]⟩, [10, 20, 30], 0⟩

/-- A two-queue device whose cursor sits at index 1. -/
def demo_device2 : cvk_device Nat := ⟨⟨[]⟩, [10, 20], 1⟩

/-- The spec's section-8 scenario on `demo_device` with the buffer
fallback list [14, 6]: bitmask 0b110 resolves to index 2, 0b010 falls back
to index 1, 0b001 yields the sentinel. -/
theorem demo_scenario :
    memory_type_index_for_resource_list demo_device 6 [14, 6] = 2 ∧
    memory_type_index_for_resource_list demo_device 2 [14, 6] = 1 ∧
    memory_type_index_for_resource_list demo_device 1 [14, 6] =
      VK_MAX_MEMORY_TYPES := by
  refine ⟨rfl, rfl, rfl⟩

-- ----------------------------------------------------------------------
-- Claims
-- ----------------------------------------------------------------------

/-- Claim C1: for every compatibility bitmask and required-property set,
`memory_type_index_for_resource` returns either the sentinel
`VK_MAX_MEMORY_TYPES` or an index whose bit is set in the bitmask and
whose memory type's property flags are a bitwise superset of the required
properties. -/
theorem memory_type_index_for_resource_sound {Q : Type} (d : cvk_device Q)
    (v req : Nat) :
    memory_type_index_for_resource d v req = VK_MAX_MEMORY_TYPES ∨
    satisfies_query d v req (memory_type_index_for_resource d v req) := by
  rcases scan_memory_types_sound req v d.m_mem_properties.memoryTypes 0 with
    h | ⟨j, hj, heq, hbit, hflag⟩
  · left; exact h
  · right
    have hres : memory_type_index_for_resource d v req = j := by
      unfold memory_type_index_for_resource
      omega
    rw [hres]
    rw [Nat.zero_add] at hbit
    exact ⟨hj, hbit, hflag⟩

/-- Claim C4: whenever some memory type satisfies the query, the resolver
returns a satisfying index that is less than or equal to every satisfying
index — first-fit by ascending index. (`memoryTypeCount` never exceeds
`VK_MAX_MEMORY_TYPES`, the size of the `memoryTypes` C array.) -/
theorem memory_type_index_for_resource_first_fit {Q : Type} (d : cvk_device Q)
    (v req : Nat)
    (hwf : d.m_mem_properties.memoryTypes.length ≤ VK_MAX_MEMORY_TYPES)
    (hex : ∃ i, satisfies_query d v req i) :
    satisfies_query d v req (memory_type_index_for_resource d v req) ∧
    ∀ i, satisfies_query d v req i →
      memory_type_index_for_resource d v req ≤ i := by
  have hmin : ∀ i, satisfies_query d v req i →
      memory_type_index_for_resource d v req ≤ i := by
    intro i hi
    obtain ⟨hib, hbit, hflag⟩ := hi
    have hb0 : Nat.testBit v (0 + i) := by rw [Nat.zero_add]; exact hbit
    have := scan_memory_types_min req v d.m_mem_properties.memoryTypes
      0 i hib hb0 hflag
    unfold memory_type_index_for_resource
    omega
  refine ⟨?_, hmin⟩
  obtain ⟨i, hi⟩ := hex
  have hle := hmin i hi
  have hbound : i < d.m_mem_properties.memoryTypes.length := hi.1
  have h32 : VK_MAX_MEMORY_TYPES = 32 := rfl
  rcases scan_memory_types_sound req v d.m_mem_properties.memoryTypes 0 with
    h | ⟨j, hj, heq, hbit, hflag⟩
  · exfalso
    have : memory_type_index_for_resource d v req = VK_MAX_MEMORY_TYPES := h
    omega
  · have hres : memory_type_index_for_resource d v req = j := by
      unfold memory_type_index_for_resource
      omega
    rw [hres]
    rw [Nat.zero_add] at hbit
    exact ⟨hj, hbit, hflag⟩

/-- Witness for C4 on the scenario device: bitmask 0b110, required
HOST_VISIBLE|HOST_COHERENT; type 1 satisfies the query. -/
theorem memory_type_index_for_resource_first_fit_witness :
    satisfies_query demo_device 6 6 (memory_type_index_for_resource demo_device 6 6) ∧
    ∀ i, satisfies_query demo_device 6 6 i →
      memory_type_index_for_resource demo_device 6 6 ≤ i :=
  memory_type_index_for_resource_first_fit demo_device 6 6 (by decide)
    ⟨1, by decide, by decide, by decide⟩

/-- Claim C3: from a fresh allocator over a non-empty pool, the `n`-th call
(0-indexed) to `vulkan_queue_allocate` returns the queue at position
`n % pool size`: the first N calls return each queue once in pool order,
and the sequence repeats with period N. -/
theorem vulkan_queue_allocate_round_robin {Q : Type}
    (mem : VkPhysicalDeviceMemoryProperties) (qs : List Q)
    (h : 0 < qs.length) (n : Nat) :
    allocate_nth (⟨mem, qs, 0⟩ : cvk_device Q) n =
      some (qs.get ⟨n % qs.length, Nat.mod_lt n h⟩) := by
  unfold allocate_nth
  rw [allocate_iter_state mem qs h n]
  simp only [vulkan_queue_allocate]
  rw [List.getElem?_eq_getElem (Nat.mod_lt n h)]
  simp [List.get_eq_getElem]

/-- Witness for C3: on a three-queue pool the fifth call returns the
second queue (index 4 mod 3 = 1). -/
theorem vulkan_queue_allocate_round_robin_witness :
    allocate_nth (⟨⟨[]⟩, [10, 20, 30], 0⟩ : cvk_device Nat) 4 = some 20 := by
  have h := vulkan_queue_allocate_round_robin ⟨[]⟩ ([10, 20, 30] : List Nat)
    (by decide) 4
  rw [h]
  rfl

/-- Claim C7: when the pool is non-empty and the cursor is in range, one
call to `vulkan_queue_allocate` leaves the pool unchanged, advances the
cursor by exactly one modulo the pool size, and keeps it in range. -/
theorem vulkan_queue_allocate_cursor_invariant {Q : Type} (d : cvk_device Q)
    (h0 : 0 < d.m_vulkan_queues.length)
    (h1 : d.m_vulkan_queue_alloc_index < d.m_vulkan_queues.length) :
    ((vulkan_queue_allocate d).2).m_vulkan_queues = d.m_vulkan_queues ∧
    ((vulkan_queue_allocate d).2).m_vulkan_queue_alloc_index =
      (d.m_vulkan_queue_alloc_index + 1) % d.m_vulkan_queues.length ∧
    ((vulkan_queue_allocate d).2).m_vulkan_queue_alloc_index <
      ((vulkan_queue_allocate d).2).m_vulkan_queues.length := by
  refine ⟨rfl, ?_, ?_⟩
  · show (if d.m_vulkan_queue_alloc_index + 1 = d.m_vulkan_queues.length
        then 0 else d.m_vulkan_queue_alloc_index + 1) = _
    have h := succ_mod_wrap d.m_vulkan_queue_alloc_index
      d.m_vulkan_queues.length h0
    rw [Nat.mod_eq_of_lt h1] at h
    exact h
  · show (if d.m_vulkan_queue_alloc_index + 1 = d.m_vulkan_queues.length
        then 0 else d.m_vulkan_queue_alloc_index + 1) < d.m_vulkan_queues.length
    split <;> omega

/-- Witness for C7 on `demo_device2` (two queues, cursor at 1): the cursor
wraps to 0 and stays in range. -/
theorem vulkan_queue_allocate_cursor_invariant_witness :
    ((vulkan_queue_allocate demo_device2).2).m_vulkan_queues =
        demo_device2.m_vulkan_queues ∧
    ((vulkan_queue_allocate demo_device2).2).m_vulkan_queue_alloc_index =
      (demo_device2.m_vulkan_queue_alloc_index + 1) %
        demo_device2.m_vulkan_queues.length ∧
    ((vulkan_queue_allocate demo_device2).2).m_vulkan_queue_alloc_index <
      ((vulkan_queue_allocate demo_device2).2).m_vulkan_queues.length :=
  vulkan_queue_allocate_cursor_invariant demo_device2 (by decide) (by decide)

/-- Claim C2: the list-taking overload returns the first non-sentinel
single-set result in list order (the sentinel when every set fails); in
particular on `[A, B]` it returns the single-set result for `A` when that
is non-sentinel and the one for `B` otherwise. -/
theorem memory_type_index_for_resource_list_first {Q : Type}
    (d : cvk_device Q) (v : Nat) :
    (∀ l : List Nat,
        memory_type_index_for_resource_list d v l =
          ((l.map fun p => memory_type_index_for_resource d v p).find?
              fun r => r != VK_MAX_MEMORY_TYPES).getD VK_MAX_MEMORY_TYPES) ∧
    ∀ A B : Nat,
      memory_type_index_for_resource_list d v [A, B] =
        if memory_type_index_for_resource d v A ≠ VK_MAX_MEMORY_TYPES
        then memory_type_index_for_resource d v A
        else memory_type_index_for_resource d v B := by
  have hgen : ∀ l : List Nat,
      memory_type_index_for_resource_list d v l =
        ((l.map fun p => memory_type_index_for_resource d v p).find?
            fun r => r != VK_MAX_MEMORY_TYPES).getD VK_MAX_MEMORY_TYPES := by
    intro l
    induction l with
    | nil => rfl
    | cons p rest ih =>
      by_cases hc : memory_type_index_for_resource d v p = VK_MAX_MEMORY_TYPES
      · simp [memory_type_index_for_resource_list, hc, ih]
      · simp [memory_type_index_for_resource_list, hc]
  refine ⟨hgen, ?_⟩
  intro A B
  by_cases hA : memory_type_index_for_resource d v A = VK_MAX_MEMORY_TYPES
  · simp [memory_type_index_for_resource_list, hA]
    intro h2
    exact h2.symm
  · simp [memory_type_index_for_resource_list, hA]

/-- Claim C5: an all-zero compatibility bitmask yields the sentinel from
the single-set resolver for every required set, and hence from the
list-taking overload for every fallback list. -/
theorem zero_bitmask_yields_sentinel {Q : Type} (d : cvk_device Q)
    (req : Nat) (l : List Nat) :
    memory_type_index_for_resource d 0 req = VK_MAX_MEMORY_TYPES ∧
    memory_type_index_for_resource_list d 0 l = VK_MAX_MEMORY_TYPES := by
  have hsingle : ∀ r, memory_type_index_for_resource d 0 r =
      VK_MAX_MEMORY_TYPES :=
    fun r => scan_memory_types_zero r d.m_mem_properties.memoryTypes 0
  refine ⟨hsingle req, ?_⟩
  induction l with
  | nil => rfl
  | cons p rest ih =>
    simp [memory_type_index_for_resource_list, hsingle p, ih]

/-- Claim C8: an empty fallback list yields the sentinel for every
compatibility bitmask. -/
theorem empty_fallback_list_yields_sentinel {Q : Type} (d : cvk_device Q)
    (v : Nat) :
    memory_type_index_for_resource_list d v [] = VK_MAX_MEMORY_TYPES := rfl

/-- Claim C6: the buffer placement decision echoes the requirements' size
and resolves the memory type through the list-taking overload with the
fixed fallback list [HOST_VISIBLE|HOST_CACHED|HOST_COHERENT,
HOST_VISIBLE|HOST_COHERENT], in that order. -/
theorem select_memory_for_buffer_decision {Q : Type} (d : cvk_device Q)
    (memreqs : VkMemoryRequirements) (flags : Nat) :
    select_memory_for_buffer d memreqs flags =
      { size := memreqs.size,
        memory_type_index :=
          memory_type_index_for_resource_list d memreqs.memoryTypeBits
            [VK_MEMORY_PROPERTY_HOST_VISIBLE_BIT |||
               VK_MEMORY_PROPERTY_HOST_CACHED_BIT |||
               VK_MEMORY_PROPERTY_HOST_COHERENT_BIT,
             VK_MEMORY_PROPERTY_HOST_VISIBLE_BIT |||
               VK_MEMORY_PROPERTY_HOST_COHERENT_BIT] } := rfl

/-- Claim C9: both resolver overloads depend only on the device's
memory-type table: two devices with equal tables (queue pool and cursor
possibly different) give identical results for identical inputs, and the
resolvers are functions — they return a value without touching the device
state. -/
theorem memory_type_index_for_resource_pure {Q : Type} (d1 d2 : cvk_device Q)
    (h : d1.m_mem_properties = d2.m_mem_properties)
    (v req : Nat) (l : List Nat) :
    memory_type_index_for_resource d1 v req =
        memory_type_index_for_resource d2 v req ∧
    memory_type_index_for_resource_list d1 v l =
        memory_type_index_for_resource_list d2 v l := by
  have hs : ∀ r, memory_type_index_for_resource d1 v r =
      memory_type_index_for_resource d2 v r := by
    intro r
    unfold memory_type_index_for_resource
    rw [h]
  refine ⟨hs req, ?_⟩
  induction l with
  | nil => rfl
  | cons p rest ih =>
    simp only [memory_type_index_for_resource_list, hs p, ih]

/-- Witness for C9: two devices sharing the table `[{flags 6}]` but with
different queue pools and cursors resolve identically. -/
theorem memory_type_index_for_resource_pure_witness :
    memory_type_index_for_resource (⟨⟨[⟨6⟩]⟩, [], 0⟩ : cvk_device Nat) 1 2 =
        memory_type_index_for_resource (⟨⟨[⟨6⟩]⟩, [9], 5⟩ : cvk_device Nat) 1 2 ∧
    memory_type_index_for_resource_list
        (⟨⟨[⟨6⟩]⟩, [], 0⟩ : cvk_device Nat) 1 [2, 4] =
      memory_type_index_for_resource_list
        (⟨⟨[⟨6⟩]⟩, [9], 5⟩ : cvk_device Nat) 1 [2, 4] :=
  memory_type_index_for_resource_pure _ _ rfl 1 2 [2, 4]

/-- Claim C10: the buffer placement decision ignores the `cl_mem_flags`
argument (`UNUSED(flags)` in the source): any two flag values give the
same decision. -/
theorem select_memory_for_buffer_flags_independent {Q : Type}
    (d : cvk_device Q) (memreqs : VkMemoryRequirements)
    (flags1 flags2 : Nat) :
    select_memory_for_buffer d memreqs flags1 =
      select_memory_for_buffer d memreqs flags2 := rfl
